import Mathlib

/-!
Shallow embedding of `drivers/i2c/busses/i2c-rpmsg-imx.c`: the i2c-over-rpmsg
driver core (wire frame codec, transport session, transfer sequencer).

Machine integers are modelled as `Nat` with explicit `% 2^w` exactly where the
C code narrows a wider value into a smaller field (the only such narrowing in
the modelled core is `int` → `u8` for the bus id).  Error returns are `Int`
values mirroring the kernel's `-Exxx` convention.  The asynchronous
environment (the rpmsg channel) is modelled explicitly: the result of
`rpmsg_send` and the list of frames delivered to the receive callback before
the waiter's timeout expires are inputs to each exchange.
-/

namespace I2cRpmsg

/-- `#define I2C_RPMSG_MAX_BUF_SIZE 16` -/
def I2C_RPMSG_MAX_BUF_SIZE : Nat := 16

/-- `#define I2C_RPMSG_TIMEOUT 500` (ms) -/
def I2C_RPMSG_TIMEOUT : Nat := 500

/-- `#define I2C_RPMSG_CATEGORY 0x09` -/
def I2C_RPMSG_CATEGORY : Nat := 0x09

/-- `#define I2C_RPMSG_VERSION 0x0001` -/
def I2C_RPMSG_VERSION : Nat := 0x0001

/-- `#define I2C_RPMSG_TYPE_REQUEST 0x00` -/
def I2C_RPMSG_TYPE_REQUEST : Nat := 0x00

/-- `#define I2C_RPMSG_TYPE_RESPONSE 0x01` -/
def I2C_RPMSG_TYPE_RESPONSE : Nat := 0x01

/-- `#define I2C_RPMSG_COMMAND_READ 0x00` -/
def I2C_RPMSG_COMMAND_READ : Nat := 0x00

/-- `#define I2C_RPMSG_COMMAND_WRITE 0x01` -/
def I2C_RPMSG_COMMAND_WRITE : Nat := 0x01

/-- `#define I2C_RPMSG_PRIORITY 0x01` -/
def I2C_RPMSG_PRIORITY : Nat := 0x01

/-- `#define I2C_RPMSG_M_STOP 0x0200` -/
def I2C_RPMSG_M_STOP : Nat := 0x0200

/-- `I2C_M_RD` from `<linux/i2c.h>` -/
def I2C_M_RD : Nat := 0x0001

/-- kernel errno `EINVAL` -/
def EINVAL : Int := 22

/-- kernel errno `ETIMEDOUT` -/
def ETIMEDOUT : Int := 110

/-- kernel errno `EPROTO` -/
def EPROTO : Int := 71

/-- `struct i2c_rpmsg_msg` together with its embedded `struct imx_rpmsg_head`
(fields `cate`, `major`, `minor`, `type`, `cmd`, `reserved[0]`); the payload
fields are `bus_id` (u8), `ret_val` (u8), `addr`/`flags`/`len` (u16) and the
16-byte `buf`. -/
structure I2cRpmsgMsg where
  cate : Nat
  major : Nat
  minor : Nat
  type : Nat
  cmd : Nat
  reserved0 : Nat
  bus_id : Nat
  ret_val : Nat
  addr : Nat
  flags : Nat
  len : Nat
  buf : List Nat
  deriving Repr, DecidableEq

instance : Inhabited I2cRpmsgMsg :=
  ⟨{ cate := 0, major := 0, minor := 0, type := 0, cmd := 0, reserved0 := 0,
     bus_id := 0, ret_val := 0, addr := 0, flags := 0, len := 0,
     buf := List.replicate 16 0 }⟩

/-- `struct i2c_msg` as used by this driver: `addr` (u16), `flags` (u16),
`len` (u16), `buf` (pointer to `len` bytes). -/
structure I2cMsg where
  addr : Nat
  flags : Nat
  len : Nat
  buf : List Nat
  deriving Repr, DecidableEq

instance : Inhabited I2cMsg := ⟨{ addr := 0, flags := 0, len := 0, buf := [] }⟩

/-- The mutable fields of the global `struct i2c_rpmsg_info i2c_rpmsg`:
whether an rpmsg device is bound (`rpdev`), the expected `bus_id` (u8) and
`addr` (u16) of the pending exchange, the stored response pointer `msg`
(NULL modelled as `none`), and the `cmd_complete` completion state. -/
structure SessionState where
  rpdev : Bool
  bus_id : Nat
  addr : Nat
  msg : Option I2cRpmsgMsg
  completed : Bool
  deriving Repr, DecidableEq

/-- The environment's behaviour for one exchange: the value returned by
`rpmsg_send`, and the frames (raw byte length, decoded frame) that the rpmsg
layer delivers to the receive callback before the 500 ms timeout expires. -/
structure ExchEnv where
  sendRet : Int
  incoming : List (Nat × I2cRpmsgMsg)
  deriving Repr, DecidableEq

instance : Inhabited ExchEnv := ⟨{ sendRet := 0, incoming := [] }⟩

/-- `i2c_rpmsg_cb`: the rpmsg receive callback.  `byteLen` is the `len`
argument (number of bytes received); note the C function never reads it.
Returns the callback's return value and the updated session state. -/
def i2c_rpmsg_cb (st : SessionState) (byteLen : Nat) (msg : I2cRpmsgMsg) :
    Int × SessionState :=
  if msg.type ≠ I2C_RPMSG_TYPE_RESPONSE then
    (-EINVAL, st)
  else if msg.bus_id ≠ st.bus_id ∨ msg.addr ≠ st.addr then
    (-EINVAL, st)
  else if msg.len > I2C_RPMSG_MAX_BUF_SIZE then
    (-EINVAL, st)
  else
    (0, { st with msg := some msg, completed := true })

/-- Deliver a list of inbound frames to the callback in order. -/
def runCallbacks (st : SessionState) (frames : List (Nat × I2cRpmsgMsg)) :
    SessionState :=
  frames.foldl (fun s p => (i2c_rpmsg_cb s p.1 p.2).2) st

/-- The branching core of `rpmsg_xfer`: send result check, bounded wait on
`cmd_complete`, then the response's `ret_val` check.  The `none` branch of
the final match models the NULL dereference of `info->msg` that the C code
would perform if the completion fired without a stored message; it is
unreachable when the exchange starts with `completed = false` (as
`i2c_rpmsg_read`/`i2c_rpmsg_write` guarantee via `reinit_completion`). -/
def rpmsg_xferCore (env : ExchEnv) (st : SessionState) : Int × SessionState :=
  if env.sendRet < 0 then
    (env.sendRet, st)
  else
    let st2 := runCallbacks st env.incoming
    if st2.completed = false then
      (-ETIMEDOUT, st2)
    else
      match st2.msg with
      | none => (-999, st2)
      | some m => if m.ret_val ≠ 0 then (-(m.ret_val : Int), st2) else (0, st2)

/-- `rpmsg_xfer`: hands `rmsg` to `rpmsg_send` (the third component records
the frames handed to the send primitive), then waits for completion and maps
the response code.  -/
def rpmsg_xfer (env : ExchEnv) (rmsg : I2cRpmsgMsg) (st : SessionState) :
    Int × SessionState × List I2cRpmsgMsg :=
  let p := rpmsg_xferCore env st
  (p.1, p.2, [rmsg])

/-- The request frame built by `i2c_rpmsg_read` (lines 196–210). -/
def mkReadFrame (msg : I2cMsg) (bus_id : Nat) (is_last : Bool) : I2cRpmsgMsg :=
  { cate := I2C_RPMSG_CATEGORY
    major := I2C_RPMSG_VERSION % 256
    minor := (I2C_RPMSG_VERSION >>> 8) % 256
    type := I2C_RPMSG_TYPE_REQUEST
    cmd := I2C_RPMSG_COMMAND_READ
    reserved0 := I2C_RPMSG_PRIORITY
    bus_id := bus_id % 256
    ret_val := 0
    addr := msg.addr
    flags := if is_last then msg.flags ||| I2C_RPMSG_M_STOP else msg.flags
    len := msg.len
    buf := List.replicate 16 0 }

/-- The request frame built by `i2c_rpmsg_write` (lines 246–263): same header
with the write command, and the message buffer copied for `len` bytes into
the zeroed 16-byte frame buffer. -/
def mkWriteFrame (msg : I2cMsg) (bus_id : Nat) (is_last : Bool) : I2cRpmsgMsg :=
  { cate := I2C_RPMSG_CATEGORY
    major := I2C_RPMSG_VERSION % 256
    minor := (I2C_RPMSG_VERSION >>> 8) % 256
    type := I2C_RPMSG_TYPE_REQUEST
    cmd := I2C_RPMSG_COMMAND_WRITE
    reserved0 := I2C_RPMSG_PRIORITY
    bus_id := bus_id % 256
    ret_val := 0
    addr := msg.addr
    flags := if is_last then msg.flags ||| I2C_RPMSG_M_STOP else msg.flags
    len := msg.len
    buf := (List.range 16).map fun i => if i < msg.len then msg.buf.getD i 0 else 0 }

/-- `i2c_rpmsg_read`: returns the C return value, the caller's message after
the call (its buffer is written on success), the session state, and the list
of frames handed to the send primitive. -/
def i2c_rpmsg_read (env : ExchEnv) (msg : I2cMsg) (st : SessionState)
    (bus_id : Nat) (is_last : Bool) :
    Int × I2cMsg × SessionState × List I2cRpmsgMsg :=
  if st.rpdev = false then
    (-EINVAL, msg, st, [])
  else if msg.len > I2C_RPMSG_MAX_BUF_SIZE then
    (-EINVAL, msg, st, [])
  else
    let rmsg := mkReadFrame msg bus_id is_last
    let r := rpmsg_xfer env rmsg { st with completed := false }
    if r.1 ≠ 0 then
      (r.1, msg, r.2.1, r.2.2)
    else
      match r.2.1.msg with
      | none => (-EPROTO, msg, r.2.1, r.2.2)
      | some rm =>
        if rm.len ≠ msg.len then
          (-EPROTO, msg, r.2.1, r.2.2)
        else
          ((msg.len : Int),
           { msg with buf := ((List.range rm.len).map fun i => rm.buf.getD i 0)
                             ++ msg.buf.drop rm.len },
           r.2.1, r.2.2)

/-- `i2c_rpmsg_write`: returns the C return value, the session state, and the
frames handed to the send primitive.  The caller's message is never written. -/
def i2c_rpmsg_write (env : ExchEnv) (msg : I2cMsg) (st : SessionState)
    (bus_id : Nat) (is_last : Bool) :
    Int × SessionState × List I2cRpmsgMsg :=
  if st.rpdev = false then
    (-EINVAL, st, [])
  else if msg.len > I2C_RPMSG_MAX_BUF_SIZE then
    (-EINVAL, st, [])
  else
    let rmsg := mkWriteFrame msg bus_id is_last
    let r := rpmsg_xfer env rmsg { st with completed := false }
    (r.1, r.2.1, r.2.2)

/-- One iteration of the `i2c_rpbus_xfer` loop body (lines 326–351): record
the expected bus id and address in the global session, then dispatch on the
`I2C_M_RD` flag; a successful read records its return value as the message's
new length (`pmsg->len = ret`). -/
def processMsg (env : ExchEnv) (m : I2cMsg) (st : SessionState) (bus : Nat)
    (is_last : Bool) : Int × I2cMsg × SessionState × List I2cRpmsgMsg :=
  let st0 := { st with bus_id := bus % 256, addr := m.addr }
  if m.flags &&& I2C_M_RD ≠ 0 then
    let r := i2c_rpmsg_read env m st0 bus is_last
    if r.1 < 0 then (r.1, r.2.1, r.2.2.1, r.2.2.2)
    else (r.1, { r.2.1 with len := r.1.toNat }, r.2.2.1, r.2.2.2)
  else
    let r := i2c_rpmsg_write env m st0 bus is_last
    (r.1, m, r.2.1, r.2.2)

/-- The `i2c_rpbus_xfer` loop: processes the messages in order, consuming one
environment element per message, with `is_last` true exactly on the final
element; stops at the first negative per-message result.  Returns `none` for
full success and `some e` for the aborting error, together with the messages
after the call, the final session state, and the concatenated send trace. -/
def i2c_rpbus_xferLoop (bus : Nat) :
    List I2cMsg → List ExchEnv → SessionState →
    Option Int × List I2cMsg × SessionState × List I2cRpmsgMsg
  | [], _, st => (none, [], st, [])
  | m :: rest, envs, st =>
    let r := processMsg (envs.headD default) m st bus rest.isEmpty
    if r.1 < 0 then
      (some r.1, r.2.1 :: rest, r.2.2.1, r.2.2.2)
    else
      let r2 := i2c_rpbus_xferLoop bus rest envs.tail r.2.2.1
      (r2.1, r.2.1 :: r2.2.1, r2.2.2.1, r.2.2.2 ++ r2.2.2.2)

/-- `i2c_rpbus_xfer`: the master-transfer entry point; returns `num` (the
message count) on full success, and the first failing message's error
otherwise. -/
def i2c_rpbus_xfer (bus : Nat) (msgs : List I2cMsg) (envs : List ExchEnv)
    (st : SessionState) : Int × List I2cMsg × SessionState × List I2cRpmsgMsg :=
  let r := i2c_rpbus_xferLoop bus msgs envs st
  (match r.1 with
   | some e => e
   | none => (msgs.length : Int),
   r.2.1, r.2.2.1, r.2.2.2)

/-- Run the first `k` loop iterations of `i2c_rpbus_xfer`, provided they all
succeed: returns the remaining messages, remaining environments, session
state, and the send trace of those `k` iterations; `none` if fewer than `k`
messages exist or some of the first `k` iterations fails. -/
def runFirstK (bus : Nat) :
    Nat → List I2cMsg → List ExchEnv → SessionState →
    Option (List I2cMsg × List ExchEnv × SessionState × List I2cRpmsgMsg)
  | 0, msgs, envs, st => some (msgs, envs, st, [])
  | _ + 1, [], _, _ => none
  | k + 1, m :: rest, envs, st =>
    let r := processMsg (envs.headD default) m st bus rest.isEmpty
    if r.1 < 0 then none
    else
      match runFirstK bus k rest envs.tail r.2.2.1 with
      | some (ms, es, s2, snt) => some (ms, es, s2, r.2.2.2 ++ snt)
      | none => none

/-- The response-acceptance condition checked by `i2c_rpmsg_read` after a
successful exchange: a response is stored and its length equals the
requested length (`!info->msg || info->msg->len != msg->len`, negated). -/
def respOk (o : Option I2cRpmsgMsg) (n : Nat) : Bool :=
  match o with
  | none => false
  | some resp => resp.len == n

/-- The request frame `processMsg` builds for message `m`: a read frame when
`I2C_M_RD` is set in the message flags, a write frame otherwise. -/
def frameFor (m : I2cMsg) (bus : Nat) (is_last : Bool) : I2cRpmsgMsg :=
  if m.flags &&& I2C_M_RD ≠ 0 then mkReadFrame m bus is_last
  else mkWriteFrame m bus is_last

/-- A per-message environment under which the exchange for message `m` fully
succeeds: the message length is in range, `rpmsg_send` accepts the frame, and
exactly one frame is delivered in time — a response with matching bus id and
address, a zero return code, an in-range length field, and — only for a
read-direction message — a length equal to the requested length (a write
accepts a response of any in-range length, e.g. a zero-length
acknowledgment). -/
def envOk (bus : Nat) (m : I2cMsg) (env : ExchEnv) : Prop :=
  m.len ≤ I2C_RPMSG_MAX_BUF_SIZE ∧ 0 ≤ env.sendRet ∧
  ∃ bl resp, env.incoming = [(bl, resp)] ∧
    resp.type = I2C_RPMSG_TYPE_RESPONSE ∧
    resp.bus_id = bus % 256 ∧ resp.addr = m.addr ∧
    resp.ret_val = 0 ∧ resp.len ≤ I2C_RPMSG_MAX_BUF_SIZE ∧
    (m.flags &&& I2C_M_RD ≠ 0 → resp.len = m.len)

/-- The callback's acceptance condition, as a single conditional. -/
theorem cb_spec (st : SessionState) (byteLen : Nat) (m : I2cRpmsgMsg) :
    i2c_rpmsg_cb st byteLen m =
      if m.type = I2C_RPMSG_TYPE_RESPONSE ∧ m.bus_id = st.bus_id ∧
          m.addr = st.addr ∧ m.len ≤ I2C_RPMSG_MAX_BUF_SIZE then
        (0, { st with msg := some m, completed := true })
      else (-EINVAL, st) := by
  unfold i2c_rpmsg_cb
  split_ifs <;> simp_all <;> omega

/-- The exchange core under an environment that delivers exactly one matching
response: the send is accepted, the callback stores the response, and the
result is `0` or the negated return code. -/
theorem xferCore_delivered (env : ExchEnv) (st : SessionState) (byteLen : Nat)
    (resp : I2cRpmsgMsg) (hsend : 0 ≤ env.sendRet)
    (hin : env.incoming = [(byteLen, resp)])
    (ht : resp.type = I2C_RPMSG_TYPE_RESPONSE) (hb : resp.bus_id = st.bus_id)
    (ha : resp.addr = st.addr) (hrl : resp.len ≤ I2C_RPMSG_MAX_BUF_SIZE) :
    rpmsg_xferCore env st =
      (if resp.ret_val ≠ 0 then -(resp.ret_val : Int) else 0,
       { st with msg := some resp, completed := true }) := by
  have hns : ¬ env.sendRet < 0 := by omega
  unfold rpmsg_xferCore runCallbacks
  rw [hin]
  simp only [List.foldl_cons, List.foldl_nil, cb_spec, ht, hb, ha, hrl]
  simp [hns]
  split <;> rfl

/-- `i2c_rpmsg_read` when the checks pass and the exchange itself fails:
the exchange's error is returned and the caller's message is untouched. -/
theorem read_xfer_fail (env : ExchEnv) (msg : I2cMsg) (st : SessionState)
    (bus_id : Nat) (is_last : Bool) (hrp : st.rpdev = true)
    (hlen : msg.len ≤ I2C_RPMSG_MAX_BUF_SIZE)
    (hret : (rpmsg_xferCore env { st with completed := false }).1 ≠ 0) :
    i2c_rpmsg_read env msg st bus_id is_last =
      ((rpmsg_xferCore env { st with completed := false }).1, msg,
       (rpmsg_xferCore env { st with completed := false }).2,
       [mkReadFrame msg bus_id is_last]) := by
  have h16 : ¬ msg.len > I2C_RPMSG_MAX_BUF_SIZE := by omega
  simp only [hrp] at hret
  simp [i2c_rpmsg_read, rpmsg_xfer, hrp, h16, hret]

/-- `i2c_rpmsg_read` when the checks pass, the exchange succeeds and the
stored response has the requested length: the payload is copied in and the
requested length is returned. -/
theorem read_xfer_ok (env : ExchEnv) (msg : I2cMsg) (st : SessionState)
    (bus_id : Nat) (is_last : Bool) (resp : I2cRpmsgMsg)
    (hrp : st.rpdev = true) (hlen : msg.len ≤ I2C_RPMSG_MAX_BUF_SIZE)
    (hret : (rpmsg_xferCore env { st with completed := false }).1 = 0)
    (hmsg : (rpmsg_xferCore env { st with completed := false }).2.msg = some resp)
    (hre : resp.len = msg.len) :
    i2c_rpmsg_read env msg st bus_id is_last =
      ((msg.len : Int),
       { msg with buf := ((List.range resp.len).map fun i => resp.buf.getD i 0)
                         ++ msg.buf.drop resp.len },
       (rpmsg_xferCore env { st with completed := false }).2,
       [mkReadFrame msg bus_id is_last]) := by
  have h16 : ¬ msg.len > I2C_RPMSG_MAX_BUF_SIZE := by omega
  simp only [hrp] at hret hmsg
  simp [i2c_rpmsg_read, rpmsg_xfer, hrp, h16, hret, hmsg, hre]

/-- `i2c_rpmsg_write` when the checks pass: the exchange result is returned
unchanged and the frame handed to the send primitive is the write frame. -/
theorem write_xfer (env : ExchEnv) (msg : I2cMsg) (st : SessionState)
    (bus_id : Nat) (is_last : Bool) (hrp : st.rpdev = true)
    (hlen : msg.len ≤ I2C_RPMSG_MAX_BUF_SIZE) :
    i2c_rpmsg_write env msg st bus_id is_last =
      ((rpmsg_xferCore env { st with completed := false }).1,
       (rpmsg_xferCore env { st with completed := false }).2,
       [mkWriteFrame msg bus_id is_last]) := by
  have h16 : ¬ msg.len > I2C_RPMSG_MAX_BUF_SIZE := by omega
  simp [i2c_rpmsg_write, rpmsg_xfer, hrp, h16]

/-- Claim C6: the receive callback stores the frame as the pending result and
signals completion exactly when the frame is a Response whose bus id and
address match the currently expected ones and whose length field is at most
16; otherwise it returns `-EINVAL` and leaves the session state unchanged. -/
theorem cb_accepts_iff_matching_response (st : SessionState) (byteLen : Nat)
    (m : I2cRpmsgMsg) :
    i2c_rpmsg_cb st byteLen m =
      if m.type = I2C_RPMSG_TYPE_RESPONSE ∧ m.bus_id = st.bus_id ∧
          m.addr = st.addr ∧ m.len ≤ I2C_RPMSG_MAX_BUF_SIZE then
        (0, { st with msg := some m, completed := true })
      else (-EINVAL, st) :=
  cb_spec st byteLen m

/-- Claim C5: a message longer than `I2C_RPMSG_MAX_BUF_SIZE` is rejected with
`-EINVAL` by both the read and the write path, with no frame handed to the
send primitive and the session state untouched. -/
theorem oversize_message_rejected_before_send (env : ExchEnv) (msg : I2cMsg)
    (st : SessionState) (bus_id : Nat) (is_last : Bool)
    (h : msg.len > I2C_RPMSG_MAX_BUF_SIZE) :
    i2c_rpmsg_read env msg st bus_id is_last = (-EINVAL, msg, st, []) ∧
    i2c_rpmsg_write env msg st bus_id is_last = (-EINVAL, st, []) := by
  unfold i2c_rpmsg_read i2c_rpmsg_write
  split_ifs <;> simp_all

theorem oversize_message_rejected_before_send_witness :
    (17 : Nat) > I2C_RPMSG_MAX_BUF_SIZE ∧
    (i2c_rpmsg_read default { addr := 0x50, flags := 1, len := 17, buf := [] }
        { rpdev := true, bus_id := 0, addr := 0, msg := none, completed := false }
        0 false =
      (-EINVAL, { addr := 0x50, flags := 1, len := 17, buf := [] },
        { rpdev := true, bus_id := 0, addr := 0, msg := none, completed := false },
        []) ∧
     i2c_rpmsg_write default { addr := 0x50, flags := 1, len := 17, buf := [] }
        { rpdev := true, bus_id := 0, addr := 0, msg := none, completed := false }
        0 false =
      (-EINVAL,
        { rpdev := true, bus_id := 0, addr := 0, msg := none, completed := false },
        [])) :=
  ⟨by decide,
   oversize_message_rejected_before_send default
     { addr := 0x50, flags := 1, len := 17, buf := [] }
     { rpdev := true, bus_id := 0, addr := 0, msg := none, completed := false }
     0 false (by decide)⟩

/-- Claim C8, counterexample: the receive callback performs no check of the
raw byte length against the frame size — a delivery whose byte length is 5
(the fixed frame is 34 bytes) is still accepted and stored, so the claim that
decoding fails whenever the byte length differs from the frame size is false. -/
theorem cb_ignores_byte_length_cex :
    i2c_rpmsg_cb
        { rpdev := true, bus_id := 1, addr := 0x50, msg := none, completed := false }
        5
        { cate := 9, major := 1, minor := 0, type := 1, cmd := 0, reserved0 := 1,
          bus_id := 1, ret_val := 0, addr := 0x50, flags := 0, len := 0,
          buf := List.replicate 16 0 } =
      (0,
       { rpdev := true, bus_id := 1, addr := 0x50,
         msg := some { cate := 9, major := 1, minor := 0, type := 1, cmd := 0,
                       reserved0 := 1, bus_id := 1, ret_val := 0, addr := 0x50,
                       flags := 0, len := 0, buf := List.replicate 16 0 },
         completed := true }) := by
  decide

/-- Claim C8, amended: the receive path drops (returns `-EINVAL`, no state
change) any frame whose decoded `len` field exceeds 16; it performs no check
of the raw byte count — the callback's behaviour is independent of the byte
length argument. -/
theorem cb_payload_guard_no_size_check (st : SessionState) (byteLen : Nat)
    (m : I2cRpmsgMsg) (hlen : m.len > I2C_RPMSG_MAX_BUF_SIZE) :
    i2c_rpmsg_cb st byteLen m = (-EINVAL, st) ∧
    ∀ byteLen2 : Nat, i2c_rpmsg_cb st byteLen m = i2c_rpmsg_cb st byteLen2 m := by
  refine ⟨?_, fun _ => rfl⟩
  unfold i2c_rpmsg_cb
  split_ifs <;> simp_all

theorem cb_payload_guard_no_size_check_witness :
    (17 : Nat) > I2C_RPMSG_MAX_BUF_SIZE ∧
    (i2c_rpmsg_cb
        { rpdev := true, bus_id := 1, addr := 0x50, msg := none, completed := false }
        34
        { cate := 9, major := 1, minor := 0, type := 1, cmd := 0, reserved0 := 1,
          bus_id := 1, ret_val := 0, addr := 0x50, flags := 0, len := 17,
          buf := List.replicate 16 0 } =
      (-EINVAL,
       { rpdev := true, bus_id := 1, addr := 0x50, msg := none, completed := false }) ∧
     ∀ byteLen2 : Nat,
       i2c_rpmsg_cb
          { rpdev := true, bus_id := 1, addr := 0x50, msg := none, completed := false }
          34
          { cate := 9, major := 1, minor := 0, type := 1, cmd := 0, reserved0 := 1,
            bus_id := 1, ret_val := 0, addr := 0x50, flags := 0, len := 17,
            buf := List.replicate 16 0 } =
        i2c_rpmsg_cb
          { rpdev := true, bus_id := 1, addr := 0x50, msg := none, completed := false }
          byteLen2
          { cate := 9, major := 1, minor := 0, type := 1, cmd := 0, reserved0 := 1,
            bus_id := 1, ret_val := 0, addr := 0x50, flags := 0, len := 17,
            buf := List.replicate 16 0 }) :=
  ⟨by decide,
   cb_payload_guard_no_size_check
     { rpdev := true, bus_id := 1, addr := 0x50, msg := none, completed := false }
     34
     { cate := 9, major := 1, minor := 0, type := 1, cmd := 0, reserved0 := 1,
       bus_id := 1, ret_val := 0, addr := 0x50, flags := 0, len := 17,
       buf := List.replicate 16 0 }
     (by decide)⟩

/-- Claim C7, counterexample: correlation is only by bus id and address, so a
late response is not "never matched to any subsequent exchange".  Concretely:
a read exchange to bus 1, address 0x50 times out (returns `-ETIMEDOUT`), and a
subsequent read exchange to the same bus and address is then resolved by a
late-arriving response frame shaped exactly like a response to the first
exchange — the callback accepts and stores it and the second exchange
succeeds with it. -/
theorem late_response_same_addr_accepted_cex :
    (i2c_rpmsg_read { sendRet := 0, incoming := [] }
        { addr := 0x50, flags := 1, len := 2, buf := [0, 0] }
        { rpdev := true, bus_id := 1, addr := 0x50, msg := none, completed := false }
        1 false).1 = -ETIMEDOUT ∧
    (i2c_rpmsg_read
        { sendRet := 0,
          incoming := [(34,
            { cate := 9, major := 1, minor := 0, type := 1, cmd := 0, reserved0 := 1,
              bus_id := 1, ret_val := 0, addr := 0x50, flags := 0, len := 2,
              buf := List.replicate 16 0xAB })] }
        { addr := 0x50, flags := 1, len := 2, buf := [0, 0] }
        ((i2c_rpmsg_read { sendRet := 0, incoming := [] }
            { addr := 0x50, flags := 1, len := 2, buf := [0, 0] }
            { rpdev := true, bus_id := 1, addr := 0x50, msg := none, completed := false }
            1 false).2.2.1)
        1 true).1 = 2 ∧
    ((i2c_rpmsg_read
        { sendRet := 0,
          incoming := [(34,
            { cate := 9, major := 1, minor := 0, type := 1, cmd := 0, reserved0 := 1,
              bus_id := 1, ret_val := 0, addr := 0x50, flags := 0, len := 2,
              buf := List.replicate 16 0xAB })] }
        { addr := 0x50, flags := 1, len := 2, buf := [0, 0] }
        ((i2c_rpmsg_read { sendRet := 0, incoming := [] }
            { addr := 0x50, flags := 1, len := 2, buf := [0, 0] }
            { rpdev := true, bus_id := 1, addr := 0x50, msg := none, completed := false }
            1 false).2.2.1)
        1 true).2.2.1).msg =
      some { cate := 9, major := 1, minor := 0, type := 1, cmd := 0, reserved0 := 1,
             bus_id := 1, ret_val := 0, addr := 0x50, flags := 0, len := 2,
             buf := List.replicate 16 0xAB } := by
  decide

/-- Claim C7, amended: an exchange with no completion within the timeout
window returns `-ETIMEDOUT`, and a late response is dropped by the receive
callback exactly when its bus id or address differs from the currently
expected ones; a late response matching the current expectation (e.g. a
subsequent exchange to the same bus and address) is accepted. -/
theorem timeout_error_and_mismatch_drop (env : ExchEnv) (rmsg : I2cRpmsgMsg)
    (st : SessionState) (hsend : 0 ≤ env.sendRet)
    (hto : (runCallbacks st env.incoming).completed = false) :
    (rpmsg_xfer env rmsg st).1 = -ETIMEDOUT ∧
    ∀ (st2 : SessionState) (byteLen : Nat) (f : I2cRpmsgMsg),
      f.bus_id ≠ st2.bus_id ∨ f.addr ≠ st2.addr →
      i2c_rpmsg_cb st2 byteLen f = (-EINVAL, st2) := by
  constructor
  · unfold rpmsg_xfer rpmsg_xferCore
    have hns : ¬ env.sendRet < 0 := by omega
    simp [hns, hto]
  · intro st2 byteLen f hmm
    unfold i2c_rpmsg_cb
    split_ifs <;> simp_all

theorem timeout_error_and_mismatch_drop_witness :
    (0 : Int) ≤ (0 : Int) ∧
    (runCallbacks
        { rpdev := true, bus_id := 1, addr := 0x50, msg := none, completed := false }
        []).completed = false ∧
    ((rpmsg_xfer { sendRet := 0, incoming := [] } default
        { rpdev := true, bus_id := 1, addr := 0x50, msg := none,
          completed := false }).1 = -ETIMEDOUT ∧
     ∀ (st2 : SessionState) (byteLen : Nat) (f : I2cRpmsgMsg),
       f.bus_id ≠ st2.bus_id ∨ f.addr ≠ st2.addr →
       i2c_rpmsg_cb st2 byteLen f = (-EINVAL, st2)) :=
  ⟨by decide, by decide,
   timeout_error_and_mismatch_drop { sendRet := 0, incoming := [] } default
     { rpdev := true, bus_id := 1, addr := 0x50, msg := none, completed := false }
     (by decide) (by decide)⟩

/-- Claim C3: a response delivered in time with a nonzero return code `r`
(1 ≤ r ≤ 13) makes the exchange fail with exactly `-r` — the specific remote
failure kind is preserved — and a transfer enclosing that exchange returns
`-r` as well. -/
theorem remote_return_code_preserved (bus : Nat) (m : I2cMsg) (st : SessionState)
    (env : ExchEnv) (byteLen : Nat) (resp : I2cRpmsgMsg)
    (hrp : st.rpdev = true) (hlen : m.len ≤ I2C_RPMSG_MAX_BUF_SIZE)
    (hsend : 0 ≤ env.sendRet) (hin : env.incoming = [(byteLen, resp)])
    (ht : resp.type = I2C_RPMSG_TYPE_RESPONSE) (hb : resp.bus_id = bus % 256)
    (ha : resp.addr = m.addr) (hrl : resp.len ≤ I2C_RPMSG_MAX_BUF_SIZE)
    (hr1 : 1 ≤ resp.ret_val) (hr13 : resp.ret_val ≤ 13) :
    (rpmsg_xfer env (frameFor m bus true)
        { st with bus_id := bus % 256, addr := m.addr, completed := false }).1 =
      -(resp.ret_val : Int) ∧
    (i2c_rpbus_xfer bus [m] [env] st).1 = -(resp.ret_val : Int) := by
  have hcore := xferCore_delivered env
    { st with bus_id := bus % 256, addr := m.addr, completed := false }
    byteLen resp hsend hin ht hb ha hrl
  have hne : resp.ret_val ≠ 0 := by omega
  have hval : (rpmsg_xferCore env
      { st with bus_id := bus % 256, addr := m.addr, completed := false }).1 =
      -(resp.ret_val : Int) := by
    rw [hcore]; simp [hne]
  have hneg : -(resp.ret_val : Int) < 0 := by
    have h1 : (1 : Int) ≤ (resp.ret_val : Int) := by exact_mod_cast hr1
    omega
  refine ⟨by simpa [rpmsg_xfer] using hval, ?_⟩
  have hstep : (processMsg env m st bus true).1 = -(resp.ret_val : Int) := by
    simp only [processMsg]
    by_cases hd : m.flags &&& I2C_M_RD ≠ 0
    · rw [if_pos hd,
        read_xfer_fail env m { st with bus_id := bus % 256, addr := m.addr }
          bus true (by simp [hrp]) hlen (by simp only [hval]; omega)]
      simp only [hval]
      rw [if_pos hneg]
    · rw [if_neg hd,
        write_xfer env m { st with bus_id := bus % 256, addr := m.addr }
          bus true (by simp [hrp]) hlen]
      simpa using hval
  simp [i2c_rpbus_xfer, i2c_rpbus_xferLoop, hstep, hneg]

theorem remote_return_code_preserved_witness :
    (1 : Nat) ≤ 10 ∧
    ((rpmsg_xfer
        { sendRet := 0,
          incoming := [(34,
            { cate := 9, major := 1, minor := 0, type := 1, cmd := 1, reserved0 := 1,
              bus_id := 1, ret_val := 10, addr := 0x50, flags := 0, len := 1,
              buf := List.replicate 16 0 })] }
        (frameFor { addr := 0x50, flags := 0, len := 1, buf := [0xAA] } 1 true)
        { rpdev := true, bus_id := 1 % 256, addr := 0x50, msg := none,
          completed := false }).1 = -(10 : Int) ∧
     (i2c_rpbus_xfer 1 [{ addr := 0x50, flags := 0, len := 1, buf := [0xAA] }]
        [{ sendRet := 0,
           incoming := [(34,
             { cate := 9, major := 1, minor := 0, type := 1, cmd := 1, reserved0 := 1,
               bus_id := 1, ret_val := 10, addr := 0x50, flags := 0, len := 1,
               buf := List.replicate 16 0 })] }]
        { rpdev := true, bus_id := 0, addr := 0, msg := none,
          completed := false }).1 = -(10 : Int)) := by
  refine ⟨by decide, ?_⟩
  exact (remote_return_code_preserved 1
    { addr := 0x50, flags := 0, len := 1, buf := [0xAA] }
    { rpdev := true, bus_id := 0, addr := 0, msg := none, completed := false }
    { sendRet := 0,
      incoming := [(34,
        { cate := 9, major := 1, minor := 0, type := 1, cmd := 1, reserved0 := 1,
          bus_id := 1, ret_val := 10, addr := 0x50, flags := 0, len := 1,
          buf := List.replicate 16 0 })] }
    34
    { cate := 9, major := 1, minor := 0, type := 1, cmd := 1, reserved0 := 1,
      bus_id := 1, ret_val := 10, addr := 0x50, flags := 0, len := 1,
      buf := List.replicate 16 0 }
    (by decide) (by decide) (by decide) (by decide) (by decide) (by decide)
    (by decide) (by decide) (by decide) (by decide))

/-- Claim C4: when a read's exchange succeeds but no response is stored or
the stored response's length differs from the requested length, the read
fails with `-EPROTO` and the caller's message is left unchanged; and in every
read whatsoever, the caller's buffer is modified only when a response of
exactly the requested length was stored. -/
theorem read_response_length_guard (env : ExchEnv) (msg : I2cMsg)
    (st : SessionState) (bus_id : Nat) (is_last : Bool)
    (hrp : st.rpdev = true) (hlen : msg.len ≤ I2C_RPMSG_MAX_BUF_SIZE)
    (hx : (rpmsg_xferCore env { st with completed := false }).1 = 0)
    (hmm : respOk (rpmsg_xferCore env { st with completed := false }).2.msg
      msg.len = false) :
    i2c_rpmsg_read env msg st bus_id is_last =
      (-EPROTO, msg, (rpmsg_xferCore env { st with completed := false }).2,
       [mkReadFrame msg bus_id is_last]) ∧
    ∀ (env2 : ExchEnv) (msg2 : I2cMsg) (st2 : SessionState) (b2 : Nat) (l2 : Bool),
      ((i2c_rpmsg_read env2 msg2 st2 b2 l2).2.1).buf ≠ msg2.buf →
      respOk ((i2c_rpmsg_read env2 msg2 st2 b2 l2).2.2.1).msg msg2.len = true := by
  constructor
  · have h16 : ¬ msg.len > I2C_RPMSG_MAX_BUF_SIZE := by omega
    obtain ⟨rp, bid, ad, m0, c0⟩ := st
    simp only [SessionState.rpdev] at hrp
    subst hrp
    rcases hc : (rpmsg_xferCore env ⟨true, bid, ad, m0, false⟩).2.msg with _ | rm
    · simp [i2c_rpmsg_read, rpmsg_xfer, h16, hx, hc]
    · rw [hc] at hmm
      have hne : rm.len ≠ msg.len := by simpa [respOk] using hmm
      simp [i2c_rpmsg_read, rpmsg_xfer, h16, hx, hc, hne]
  · intro env2 msg2 st2 b2 l2 hbuf
    obtain ⟨rp2, bid2, ad2, mm2, cc2⟩ := st2
    cases rp2 with
    | false => simp [i2c_rpmsg_read] at hbuf
    | true =>
      by_cases h2 : msg2.len > I2C_RPMSG_MAX_BUF_SIZE
      · simp [i2c_rpmsg_read, h2] at hbuf
      · by_cases h3 : (rpmsg_xferCore env2 ⟨true, bid2, ad2, mm2, false⟩).1 ≠ 0
        · simp [i2c_rpmsg_read, rpmsg_xfer, h2, h3] at hbuf
        · rcases hc : (rpmsg_xferCore env2 ⟨true, bid2, ad2, mm2, false⟩).2.msg
            with _ | rm
          · simp [i2c_rpmsg_read, rpmsg_xfer, h2, h3, hc] at hbuf
          · by_cases h4 : rm.len = msg2.len
            · simp [i2c_rpmsg_read, rpmsg_xfer, h2, h3, hc, h4, respOk]
            · simp [i2c_rpmsg_read, rpmsg_xfer, h2, h3, hc, h4] at hbuf

theorem read_response_length_guard_witness :
    (2 : Nat) ≤ I2C_RPMSG_MAX_BUF_SIZE ∧
    (rpmsg_xferCore
        { sendRet := 0,
          incoming := [(34,
            { cate := 9, major := 1, minor := 0, type := 1, cmd := 0, reserved0 := 1,
              bus_id := 1, ret_val := 0, addr := 0x50, flags := 0, len := 3,
              buf := List.replicate 16 5 })] }
        { rpdev := true, bus_id := 1, addr := 0x50, msg := none,
          completed := false }).1 = 0 ∧
    (i2c_rpmsg_read
        { sendRet := 0,
          incoming := [(34,
            { cate := 9, major := 1, minor := 0, type := 1, cmd := 0, reserved0 := 1,
              bus_id := 1, ret_val := 0, addr := 0x50, flags := 0, len := 3,
              buf := List.replicate 16 5 })] }
        { addr := 0x50, flags := 1, len := 2, buf := [0, 0] }
        { rpdev := true, bus_id := 1, addr := 0x50, msg := none, completed := false }
        9 false =
      (-EPROTO, { addr := 0x50, flags := 1, len := 2, buf := [0, 0] },
       (rpmsg_xferCore
          { sendRet := 0,
            incoming := [(34,
              { cate := 9, major := 1, minor := 0, type := 1, cmd := 0, reserved0 := 1,
                bus_id := 1, ret_val := 0, addr := 0x50, flags := 0, len := 3,
                buf := List.replicate 16 5 })] }
          { rpdev := true, bus_id := 1, addr := 0x50, msg := none,
            completed := false }).2,
       [mkReadFrame { addr := 0x50, flags := 1, len := 2, buf := [0, 0] } 9 false])) :=
  ⟨by decide, by decide,
   (read_response_length_guard
     { sendRet := 0,
       incoming := [(34,
         { cate := 9, major := 1, minor := 0, type := 1, cmd := 0, reserved0 := 1,
           bus_id := 1, ret_val := 0, addr := 0x50, flags := 0, len := 3,
           buf := List.replicate 16 5 })] }
     { addr := 0x50, flags := 1, len := 2, buf := [0, 0] }
     { rpdev := true, bus_id := 1, addr := 0x50, msg := none, completed := false }
     9 false (by decide) (by decide) (by decide) (by decide)).1⟩

/-- Both request frames carry the message flags, with the STOP bit ORed in
exactly when the message is the last of the transfer. -/
theorem frameFor_flags (m : I2cMsg) (bus : Nat) (is_last : Bool) :
    (frameFor m bus is_last).flags =
      if is_last then m.flags ||| I2C_RPMSG_M_STOP else m.flags := by
  unfold frameFor mkReadFrame mkWriteFrame
  split <;> rfl

/-- `i2c_rpmsg_read` either rejects locally (returning `-EINVAL`, sending
nothing, leaving everything unchanged) or hands exactly the read frame to the
send primitive. -/
theorem read_cases (env : ExchEnv) (m : I2cMsg) (st : SessionState)
    (bus_id : Nat) (is_last : Bool) :
    i2c_rpmsg_read env m st bus_id is_last = (-EINVAL, m, st, []) ∨
    (i2c_rpmsg_read env m st bus_id is_last).2.2.2 =
      [mkReadFrame m bus_id is_last] := by
  unfold i2c_rpmsg_read
  split
  · exact Or.inl rfl
  · split
    · exact Or.inl rfl
    · right
      simp only [rpmsg_xfer]
      split
      · rfl
      · split
        · rfl
        · split <;> rfl

/-- `i2c_rpmsg_write` either rejects locally or hands exactly the write frame
to the send primitive. -/
theorem write_cases (env : ExchEnv) (m : I2cMsg) (st : SessionState)
    (bus_id : Nat) (is_last : Bool) :
    i2c_rpmsg_write env m st bus_id is_last = (-EINVAL, st, []) ∨
    (i2c_rpmsg_write env m st bus_id is_last).2.2 =
      [mkWriteFrame m bus_id is_last] := by
  unfold i2c_rpmsg_write
  split
  · exact Or.inl rfl
  · split
    · exact Or.inl rfl
    · exact Or.inr rfl

/-- One sequencer iteration either fails with `-EINVAL` having sent nothing,
or hands exactly the message's request frame to the send primitive. -/
theorem processMsg_cases (env : ExchEnv) (m : I2cMsg) (st : SessionState)
    (bus : Nat) (is_last : Bool) :
    (processMsg env m st bus is_last).1 = -EINVAL ∧
      (processMsg env m st bus is_last).2.2.2 = [] ∨
    (processMsg env m st bus is_last).2.2.2 = [frameFor m bus is_last] := by
  simp only [processMsg, frameFor]
  by_cases hd : m.flags &&& I2C_M_RD ≠ 0
  · rw [if_pos hd, if_pos hd]
    rcases read_cases env m { st with bus_id := bus % 256, addr := m.addr }
        bus is_last with h | h
    · rw [h]
      norm_num [EINVAL]
    · right
      split <;> simpa using h
  · rw [if_neg hd, if_neg hd]
    rcases write_cases env m { st with bus_id := bus % 256, addr := m.addr }
        bus is_last with h | h
    · rw [h]
      norm_num [EINVAL]
    · right
      simpa using h

/-- The send trace of the sequencer loop: the `i`-th frame handed to the send
primitive is the request frame of the `i`-th message, with the last-message
flag exactly when no message follows it. -/
theorem xferLoop_sent (bus : Nat) (msgs : List I2cMsg) :
    ∀ (envs : List ExchEnv) (st : SessionState) (i : Nat),
      i < ((i2c_rpbus_xferLoop bus msgs envs st).2.2.2).length →
      i < msgs.length ∧
      ((i2c_rpbus_xferLoop bus msgs envs st).2.2.2).getD i default =
        frameFor (msgs.getD i default) bus (msgs.drop (i + 1)).isEmpty := by
  induction msgs with
  | nil =>
    intro envs st i hi
    simp [i2c_rpbus_xferLoop] at hi
  | cons m rest ih =>
    intro envs st i hi
    rcases processMsg_cases (envs.headD default) m st bus rest.isEmpty
        with ⟨hret, hsent⟩ | hsent
    · have hempty : (i2c_rpbus_xferLoop bus (m :: rest) envs st).2.2.2 = [] := by
        simp only [i2c_rpbus_xferLoop]
        rw [if_pos (by rw [hret]; norm_num [EINVAL])]
        exact hsent
      rw [hempty] at hi
      simp at hi
    · by_cases hr : (processMsg (envs.headD default) m st bus rest.isEmpty).1 < 0
      · have hloop : (i2c_rpbus_xferLoop bus (m :: rest) envs st).2.2.2 =
            [frameFor m bus rest.isEmpty] := by
          simp only [i2c_rpbus_xferLoop]
          rw [if_pos hr]
          exact hsent
        rw [hloop] at hi ⊢
        simp only [List.length_singleton] at hi
        have hi0 : i = 0 := by omega
        subst hi0
        exact ⟨by simp, by simp⟩
      · have hloop : (i2c_rpbus_xferLoop bus (m :: rest) envs st).2.2.2 =
            frameFor m bus rest.isEmpty ::
              (i2c_rpbus_xferLoop bus rest envs.tail
                (processMsg (envs.headD default) m st bus rest.isEmpty).2.2.1).2.2.2 := by
          simp only [i2c_rpbus_xferLoop]
          rw [if_neg hr, hsent]
          rfl
        rw [hloop] at hi ⊢
        cases i with
        | zero => exact ⟨by simp, by simp⟩
        | succ j =>
          simp only [List.length_cons, Nat.succ_lt_succ_iff] at hi
          rcases ih envs.tail
              (processMsg (envs.headD default) m st bus rest.isEmpty).2.2.1 j hi
            with ⟨hlt, heq⟩
          refine ⟨by simpa using Nat.succ_lt_succ hlt, ?_⟩
          simpa [List.getD_cons_succ] using heq

/-- Claim C1: in every transfer, the wire frame built for message `i` carries
the message's flags ORed with the STOP bit (0x0200) exactly when `i` is the
last message, and the flags unchanged otherwise — for read- and
write-direction messages alike. -/
theorem stop_flag_on_last_frame_only (bus : Nat) (msgs : List I2cMsg)
    (envs : List ExchEnv) (st : SessionState) (hne : msgs ≠ []) (i : Nat)
    (hi : i < ((i2c_rpbus_xfer bus msgs envs st).2.2.2).length) :
    i < msgs.length ∧
    (((i2c_rpbus_xfer bus msgs envs st).2.2.2).getD i default).flags =
      (if i + 1 = msgs.length then
        (msgs.getD i default).flags ||| I2C_RPMSG_M_STOP
      else (msgs.getD i default).flags) := by
  have hsame : (i2c_rpbus_xfer bus msgs envs st).2.2.2 =
      (i2c_rpbus_xferLoop bus msgs envs st).2.2.2 := rfl
  rw [hsame] at hi ⊢
  rcases xferLoop_sent bus msgs envs st i hi with ⟨hlt, heq⟩
  refine ⟨hlt, ?_⟩
  rw [heq, frameFor_flags]
  by_cases hl : i + 1 = msgs.length
  · have hdrop : msgs.drop (i + 1) = [] := by
      apply List.eq_nil_of_length_eq_zero
      rw [List.length_drop]
      omega
    simp [hdrop, hl]
  · have hdrop : (msgs.drop (i + 1)).length ≠ 0 := by
      rw [List.length_drop]
      omega
    rcases hd : msgs.drop (i + 1) with _ | ⟨a, t⟩
    · rw [hd] at hdrop; simp at hdrop
    · simp [hd, hl]

theorem stop_flag_on_last_frame_only_witness :
    ([{ addr := 0x50, flags := 0, len := 1, buf := [0x01] },
      { addr := 0x50, flags := 1, len := 2, buf := [0, 0] }] ≠ ([] : List I2cMsg)) ∧
    (1 < ([{ addr := 0x50, flags := 0, len := 1, buf := [0x01] },
           { addr := 0x50, flags := 1, len := 2, buf := [0, 0] }] : List I2cMsg).length ∧
     (((i2c_rpbus_xfer 0
          [{ addr := 0x50, flags := 0, len := 1, buf := [0x01] },
           { addr := 0x50, flags := 1, len := 2, buf := [0, 0] }]
          [{ sendRet := 0,
             incoming := [(34,
               { cate := 9, major := 1, minor := 0, type := 1, cmd := 1, reserved0 := 1,
                 bus_id := 0, ret_val := 0, addr := 0x50, flags := 0, len := 1,
                 buf := List.replicate 16 0 })] },
           { sendRet := 0, incoming := [] }]
          { rpdev := true, bus_id := 0, addr := 0, msg := none,
            completed := false }).2.2.2).getD 1 default).flags =
       (if 1 + 1 = ([{ addr := 0x50, flags := 0, len := 1, buf := [0x01] },
                     { addr := 0x50, flags := 1, len := 2, buf := [0, 0] }] : List I2cMsg).length then
         (([{ addr := 0x50, flags := 0, len := 1, buf := [0x01] },
            { addr := 0x50, flags := 1, len := 2, buf := [0, 0] }] : List I2cMsg).getD 1 default).flags |||
           I2C_RPMSG_M_STOP
       else
         (([{ addr := 0x50, flags := 0, len := 1, buf := [0x01] },
            { addr := 0x50, flags := 1, len := 2, buf := [0, 0] }] : List I2cMsg).getD 1 default).flags)) :=
  ⟨by decide,
   stop_flag_on_last_frame_only 0
     [{ addr := 0x50, flags := 0, len := 1, buf := [0x01] },
      { addr := 0x50, flags := 1, len := 2, buf := [0, 0] }]
     [{ sendRet := 0,
        incoming := [(34,
          { cate := 9, major := 1, minor := 0, type := 1, cmd := 1, reserved0 := 1,
            bus_id := 0, ret_val := 0, addr := 0x50, flags := 0, len := 1,
            buf := List.replicate 16 0 })] },
      { sendRet := 0, incoming := [] }]
     { rpdev := true, bus_id := 0, addr := 0, msg := none, completed := false }
     (by decide) 1 (by decide)⟩

/-- If the first `k` sequencer iterations succeed and iteration `k` fails,
the loop stops there: its result is iteration `k`'s error and its send trace
is the first `k` iterations' trace followed by iteration `k`'s. -/
theorem xferLoop_abort (bus : Nat) (k : Nat) :
    ∀ (msgs : List I2cMsg) (envs : List ExchEnv) (st : SessionState)
      (mk0 : I2cMsg) (ms : List I2cMsg) (es : List ExchEnv) (s2 : SessionState)
      (snt : List I2cRpmsgMsg),
      runFirstK bus k msgs envs st = some (mk0 :: ms, es, s2, snt) →
      (processMsg (es.headD default) mk0 s2 bus ms.isEmpty).1 < 0 →
      (i2c_rpbus_xferLoop bus msgs envs st).1 =
        some (processMsg (es.headD default) mk0 s2 bus ms.isEmpty).1 ∧
      (i2c_rpbus_xferLoop bus msgs envs st).2.2.2 =
        snt ++ (processMsg (es.headD default) mk0 s2 bus ms.isEmpty).2.2.2 := by
  induction k with
  | zero =>
    intro msgs envs st mk0 ms es s2 snt hpre herr
    simp only [runFirstK, Option.some.injEq, Prod.mk.injEq] at hpre
    obtain ⟨hm, he, hs, hsnt⟩ := hpre
    subst hm
    subst he
    subst hs
    subst hsnt
    simp only [i2c_rpbus_xferLoop]
    rw [if_pos herr]
    simp
  | succ k ih =>
    intro msgs envs st mk0 ms es s2 snt hpre herr
    cases msgs with
    | nil => simp [runFirstK] at hpre
    | cons m rest =>
      simp only [runFirstK] at hpre
      split at hpre
      · exact absurd hpre (by simp)
      · rename_i hr
        split at hpre
        · rename_i ms' es' s2' snt' heq
          simp only [Option.some.injEq, Prod.mk.injEq] at hpre
          obtain ⟨hm, he, hs, hsnt⟩ := hpre
          subst hm
          subst he
          subst hs
          have hrec := ih rest envs.tail
            (processMsg (envs.headD default) m st bus rest.isEmpty).2.2.1
            mk0 ms es' s2' snt' heq herr
          simp only [i2c_rpbus_xferLoop]
          rw [if_neg hr]
          refine ⟨hrec.1, ?_⟩
          rw [hrec.2, ← hsnt, List.append_assoc]
        · exact absurd hpre (by simp)

/-- Claim C2: if the first `k` messages of a transfer are processed
successfully and processing message `k` returns an error, the transfer call
returns exactly that error, and the frames handed to the send primitive are
those of messages `0..k` only — nothing is built or sent for any later
message. -/
theorem transfer_aborts_at_first_error (bus k : Nat) (msgs : List I2cMsg)
    (envs : List ExchEnv) (st : SessionState) (mk0 : I2cMsg) (ms : List I2cMsg)
    (es : List ExchEnv) (s2 : SessionState) (snt : List I2cRpmsgMsg)
    (hpre : runFirstK bus k msgs envs st = some (mk0 :: ms, es, s2, snt))
    (herr : (processMsg (es.headD default) mk0 s2 bus ms.isEmpty).1 < 0) :
    (i2c_rpbus_xfer bus msgs envs st).1 =
      (processMsg (es.headD default) mk0 s2 bus ms.isEmpty).1 ∧
    (i2c_rpbus_xfer bus msgs envs st).2.2.2 =
      snt ++ (processMsg (es.headD default) mk0 s2 bus ms.isEmpty).2.2.2 := by
  have h := xferLoop_abort bus k msgs envs st mk0 ms es s2 snt hpre herr
  exact ⟨by simp [i2c_rpbus_xfer, h.1], by simpa [i2c_rpbus_xfer] using h.2⟩

theorem transfer_aborts_at_first_error_witness :
    runFirstK 0 0
      [{ addr := 2, flags := 0, len := 1, buf := [5] },
       { addr := 3, flags := 1, len := 1, buf := [0] }]
      [{ sendRet := 0, incoming := [] }]
      { rpdev := true, bus_id := 0, addr := 0, msg := none, completed := false } =
      some ([{ addr := 2, flags := 0, len := 1, buf := [5] },
             { addr := 3, flags := 1, len := 1, buf := [0] }],
            [{ sendRet := 0, incoming := [] }],
            { rpdev := true, bus_id := 0, addr := 0, msg := none, completed := false },
            []) ∧
    (processMsg (([{ sendRet := 0, incoming := [] }] : List ExchEnv).headD default)
        { addr := 2, flags := 0, len := 1, buf := [5] }
        { rpdev := true, bus_id := 0, addr := 0, msg := none, completed := false }
        0 ([{ addr := 3, flags := 1, len := 1, buf := [0] }] : List I2cMsg).isEmpty).1
      < 0 ∧
    ((i2c_rpbus_xfer 0
        [{ addr := 2, flags := 0, len := 1, buf := [5] },
         { addr := 3, flags := 1, len := 1, buf := [0] }]
        [{ sendRet := 0, incoming := [] }]
        { rpdev := true, bus_id := 0, addr := 0, msg := none,
          completed := false }).1 =
      (processMsg (([{ sendRet := 0, incoming := [] }] : List ExchEnv).headD default)
        { addr := 2, flags := 0, len := 1, buf := [5] }
        { rpdev := true, bus_id := 0, addr := 0, msg := none, completed := false }
        0 ([{ addr := 3, flags := 1, len := 1, buf := [0] }] : List I2cMsg).isEmpty).1 ∧
     (i2c_rpbus_xfer 0
        [{ addr := 2, flags := 0, len := 1, buf := [5] },
         { addr := 3, flags := 1, len := 1, buf := [0] }]
        [{ sendRet := 0, incoming := [] }]
        { rpdev := true, bus_id := 0, addr := 0, msg := none,
          completed := false }).2.2.2 =
      [] ++
        (processMsg (([{ sendRet := 0, incoming := [] }] : List ExchEnv).headD default)
          { addr := 2, flags := 0, len := 1, buf := [5] }
          { rpdev := true, bus_id := 0, addr := 0, msg := none, completed := false }
          0 ([{ addr := 3, flags := 1, len := 1, buf := [0] }] : List I2cMsg).isEmpty).2.2.2) :=
  ⟨by decide, by decide,
   transfer_aborts_at_first_error 0 0
     [{ addr := 2, flags := 0, len := 1, buf := [5] },
      { addr := 3, flags := 1, len := 1, buf := [0] }]
     [{ sendRet := 0, incoming := [] }]
     { rpdev := true, bus_id := 0, addr := 0, msg := none, completed := false }
     { addr := 2, flags := 0, len := 1, buf := [5] }
     [{ addr := 3, flags := 1, len := 1, buf := [0] }]
     [{ sendRet := 0, incoming := [] }]
     { rpdev := true, bus_id := 0, addr := 0, msg := none, completed := false }
     [] (by decide) (by decide)⟩

/-- One sequencer iteration under a fully-successful environment: the result
is nonnegative, the session keeps its bound device, and the message's length
field is unchanged. -/
theorem processMsg_ok (env : ExchEnv) (m : I2cMsg) (st : SessionState)
    (bus : Nat) (is_last : Bool) (hrp : st.rpdev = true) (hok : envOk bus m env) :
    0 ≤ (processMsg env m st bus is_last).1 ∧
    (processMsg env m st bus is_last).2.2.1.rpdev = true ∧
    (processMsg env m st bus is_last).2.1.len = m.len := by
  obtain ⟨hm, hs, bl, resp, hin, ht, hb, ha, hrv, hrl16, hrd⟩ := hok
  obtain ⟨rp, bid, ad, m0, c0⟩ := st
  simp only [SessionState.rpdev] at hrp
  subst hrp
  have hcore := xferCore_delivered env ⟨true, bus % 256, m.addr, m0, false⟩
    bl resp hs hin ht (by simpa using hb) (by simpa using ha) hrl16
  have hcore0 : rpmsg_xferCore env ⟨true, bus % 256, m.addr, m0, false⟩ =
      (0, ⟨true, bus % 256, m.addr, some resp, true⟩) := by
    rw [hcore]
    simp [hrv]
  by_cases hd : m.flags &&& I2C_M_RD ≠ 0
  · have hread := read_xfer_ok env m ⟨true, bus % 256, m.addr, m0, c0⟩ bus is_last
      resp rfl hm (by simp [hcore0]) (by simp [hcore0]) (hrd hd)
    simp only [processMsg]
    rw [if_pos hd]
    have hupd : ({ (⟨true, bid, ad, m0, c0⟩ : SessionState) with
        bus_id := bus % 256, addr := m.addr } : SessionState) =
        ⟨true, bus % 256, m.addr, m0, c0⟩ := rfl
    rw [hupd, hread]
    have hnn : ¬ ((m.len : Int) < 0) := by omega
    simp [hnn, hcore0]
  · have hwrite := write_xfer env m ⟨true, bus % 256, m.addr, m0, c0⟩ bus is_last
      rfl hm
    simp only [processMsg]
    rw [if_neg hd]
    have hupd : ({ (⟨true, bid, ad, m0, c0⟩ : SessionState) with
        bus_id := bus % 256, addr := m.addr } : SessionState) =
        ⟨true, bus % 256, m.addr, m0, c0⟩ := rfl
    rw [hupd, hwrite]
    simp [hcore0]

/-- The sequencer loop under fully-successful environments: no error, and
every message's length field is preserved. -/
theorem xferLoop_all_ok (bus : Nat) (msgs : List I2cMsg) :
    ∀ (envs : List ExchEnv) (st : SessionState), st.rpdev = true →
      (∀ i, i < msgs.length →
        envOk bus (msgs.getD i default) (envs.getD i default)) →
      (i2c_rpbus_xferLoop bus msgs envs st).1 = none ∧
      ∀ i, ((i2c_rpbus_xferLoop bus msgs envs st).2.1.getD i default).len =
        (msgs.getD i default).len := by
  induction msgs with
  | nil =>
    intro envs st _ _
    exact ⟨rfl, fun i => by simp [i2c_rpbus_xferLoop]⟩
  | cons m rest ih =>
    intro envs st hrp hok
    have hok0 : envOk bus m (envs.headD default) := by
      have h := hok 0 (by simp)
      have hhead : envs.getD 0 default = envs.headD default := by
        cases envs <;> rfl
      rw [hhead] at h
      simpa using h
    have hpm := processMsg_ok (envs.headD default) m st bus rest.isEmpty hrp hok0
    have hok' : ∀ i, i < rest.length →
        envOk bus (rest.getD i default) (envs.tail.getD i default) := by
      intro i hi
      have h := hok (i + 1) (by simpa using Nat.succ_lt_succ hi)
      cases envs with
      | nil => simpa using h
      | cons e es => simpa using h
    have hrec := ih envs.tail
      (processMsg (envs.headD default) m st bus rest.isEmpty).2.2.1
      hpm.2.1 hok'
    have hnr : ¬ (processMsg (envs.headD default) m st bus rest.isEmpty).1 < 0 := by
      have h := hpm.1
      omega
    constructor
    · simp only [i2c_rpbus_xferLoop]
      rw [if_neg hnr]
      exact hrec.1
    · intro i
      simp only [i2c_rpbus_xferLoop]
      rw [if_neg hnr]
      cases i with
      | zero => simpa using hpm.2.2
      | succ j => simpa using hrec.2 j

/-- Claim C9: a transfer in which every per-message exchange fully succeeds
returns the message count, and every message's recorded length equals its
requested length (reads record exactly the value the read returned, which is
the requested length). -/
theorem full_success_returns_count (bus : Nat) (msgs : List I2cMsg)
    (envs : List ExchEnv) (st : SessionState) (hrp : st.rpdev = true)
    (hok : ∀ i, i < msgs.length →
      envOk bus (msgs.getD i default) (envs.getD i default)) :
    (i2c_rpbus_xfer bus msgs envs st).1 = (msgs.length : Int) ∧
    ∀ i, ((i2c_rpbus_xfer bus msgs envs st).2.1.getD i default).len =
      (msgs.getD i default).len := by
  have h := xferLoop_all_ok bus msgs envs st hrp hok
  exact ⟨by simp [i2c_rpbus_xfer, h.1],
         fun i => by simpa [i2c_rpbus_xfer] using h.2 i⟩

theorem full_success_returns_count_witness :
    (i2c_rpbus_xfer 1 [{ addr := 0x50, flags := 0, len := 1, buf := [0xAA] }]
        [{ sendRet := 0,
           incoming := [(34,
             { cate := 9, major := 1, minor := 0, type := 1, cmd := 1, reserved0 := 1,
               bus_id := 1, ret_val := 0, addr := 0x50, flags := 0, len := 0,
               buf := List.replicate 16 0 })] }]
        { rpdev := true, bus_id := 0, addr := 0, msg := none,
          completed := false }).1 =
      (([{ addr := 0x50, flags := 0, len := 1, buf := [0xAA] }] : List I2cMsg).length : Int) ∧
    ((i2c_rpbus_xfer 1 [{ addr := 0x50, flags := 0, len := 1, buf := [0xAA] }]
        [{ sendRet := 0,
           incoming := [(34,
             { cate := 9, major := 1, minor := 0, type := 1, cmd := 1, reserved0 := 1,
               bus_id := 1, ret_val := 0, addr := 0x50, flags := 0, len := 0,
               buf := List.replicate 16 0 })] }]
        { rpdev := true, bus_id := 0, addr := 0, msg := none,
          completed := false }).2.1.getD 0 default).len =
      (([{ addr := 0x50, flags := 0, len := 1, buf := [0xAA] }] : List I2cMsg).getD
        0 default).len := by
  have h := full_success_returns_count 1
    [{ addr := 0x50, flags := 0, len := 1, buf := [0xAA] }]
    [{ sendRet := 0,
       incoming := [(34,
         { cate := 9, major := 1, minor := 0, type := 1, cmd := 1, reserved0 := 1,
           bus_id := 1, ret_val := 0, addr := 0x50, flags := 0, len := 0,
           buf := List.replicate 16 0 })] }]
    { rpdev := true, bus_id := 0, addr := 0, msg := none, completed := false }
    (by decide)
    (by
      intro i hi
      have hi0 : i = 0 := by
        simp only [List.length_singleton] at hi
        omega
      subst hi0
      exact ⟨by decide, by decide, 34,
        { cate := 9, major := 1, minor := 0, type := 1, cmd := 1, reserved0 := 1,
          bus_id := 1, ret_val := 0, addr := 0x50, flags := 0, len := 0,
          buf := List.replicate 16 0 },
        by decide, by decide, by decide, by decide, by decide, by decide,
        by decide⟩)
  exact ⟨h.1, h.2 0⟩

/-- A write-direction message is returned unchanged by the sequencer
iteration that processes it. -/
theorem processMsg_write_keeps (env : ExchEnv) (m : I2cMsg) (st : SessionState)
    (bus : Nat) (is_last : Bool) (hw : m.flags &&& I2C_M_RD = 0) :
    (processMsg env m st bus is_last).2.1 = m := by
  simp [processMsg, hw]

/-- The loop never modifies a write-direction message. -/
theorem xferLoop_write_keep (bus : Nat) (msgs : List I2cMsg) :
    ∀ (envs : List ExchEnv) (st : SessionState) (i : Nat),
      (msgs.getD i default).flags &&& I2C_M_RD = 0 →
      ((i2c_rpbus_xferLoop bus msgs envs st).2.1).getD i default =
        msgs.getD i default := by
  induction msgs with
  | nil =>
    intro envs st i hw
    simp [i2c_rpbus_xferLoop]
  | cons m rest ih =>
    intro envs st i hw
    simp only [i2c_rpbus_xferLoop]
    by_cases hr : (processMsg (envs.headD default) m st bus rest.isEmpty).1 < 0
    · rw [if_pos hr]
      cases i with
      | zero =>
        have hm := processMsg_write_keeps (envs.headD default) m st bus
          rest.isEmpty (by simpa using hw)
        simpa using hm
      | succ j => simp
    · rw [if_neg hr]
      cases i with
      | zero =>
        have hm := processMsg_write_keeps (envs.headD default) m st bus
          rest.isEmpty (by simpa using hw)
        simpa using hm
      | succ j =>
        have h := ih envs.tail
          (processMsg (envs.headD default) m st bus rest.isEmpty).2.2.1
          j (by simpa using hw)
        simpa using h

/-- Claim C10: a write-direction message is left completely unchanged by the
transfer — same buffer, same length, same fields — whether its own exchange
succeeds or fails; only read-direction messages are ever modified. -/
theorem write_messages_unmodified (bus : Nat) (msgs : List I2cMsg)
    (envs : List ExchEnv) (st : SessionState) (i : Nat)
    (hw : (msgs.getD i default).flags &&& I2C_M_RD = 0) :
    ((i2c_rpbus_xfer bus msgs envs st).2.1).getD i default =
      msgs.getD i default :=
  xferLoop_write_keep bus msgs envs st i hw

theorem write_messages_unmodified_witness :
    (([{ addr := 0x50, flags := 1, len := 2, buf := [0, 0] },
       { addr := 0x51, flags := 0, len := 1, buf := [0x7F] }] : List I2cMsg).getD 1
        default).flags &&& I2C_M_RD = 0 ∧
    ((i2c_rpbus_xfer 0
        [{ addr := 0x50, flags := 1, len := 2, buf := [0, 0] },
         { addr := 0x51, flags := 0, len := 1, buf := [0x7F] }]
        [{ sendRet := 0,
           incoming := [(34,
             { cate := 9, major := 1, minor := 0, type := 1, cmd := 0, reserved0 := 1,
               bus_id := 0, ret_val := 0, addr := 0x50, flags := 0, len := 2,
               buf := List.replicate 16 3 })] },
         { sendRet := 0, incoming := [] }]
        { rpdev := true, bus_id := 0, addr := 0, msg := none,
          completed := false }).2.1).getD 1 default =
      ([{ addr := 0x50, flags := 1, len := 2, buf := [0, 0] },
        { addr := 0x51, flags := 0, len := 1, buf := [0x7F] }] : List I2cMsg).getD 1
        default :=
  ⟨by decide,
   write_messages_unmodified 0
     [{ addr := 0x50, flags := 1, len := 2, buf := [0, 0] },
      { addr := 0x51, flags := 0, len := 1, buf := [0x7F] }]
     [{ sendRet := 0,
        incoming := [(34,
          { cate := 9, major := 1, minor := 0, type := 1, cmd := 0, reserved0 := 1,
            bus_id := 0, ret_val := 0, addr := 0x50, flags := 0, len := 2,
            buf := List.replicate 16 3 })] },
      { sendRet := 0, incoming := [] }]
     { rpdev := true, bus_id := 0, addr := 0, msg := none, completed := false }
     1 (by decide)⟩

end I2cRpmsg
